import Mathlib

/-!
# sim7600: a verification development of `sim7600.h`

The header declares the component class `Sim7600Component`, the `State`
enumeration, five trigger classes and five action classes.  The definitions
below embed them; members whose bodies live outside the header are either
taken as parameters or modelled from the specification, and say so.
-/

namespace esphome
namespace sim7600

/-- Capacity of the read buffer: `const uint16_t SIM7600_READ_BUFFER_LENGTH = 1024;`. -/
def SIM7600_READ_BUFFER_LENGTH : Nat := 1024

/-- The `State` enumeration of the header, enumerators in declaration order. -/
inductive State where
  | STATE_IDLE
  | STATE_INIT
  | STATE_SETUP_CMGF
  | STATE_SETUP_CLIP
  | STATE_CEREG
  | STATE_CEREG_WAIT
  | STATE_CGREG
  | STATE_CGREG_WAIT
  | STATE_CSQ
  | STATE_CSQ_RESPONSE
  | STATE_SENDING_SMS_1
  | STATE_SENDING_SMS_2
  | STATE_SENDING_SMS_3
  | STATE_CHECK_SMS
  | STATE_PARSE_SMS_RESPONSE
  | STATE_RECEIVE_SMS
  | STATE_RECEIVED_SMS
  | STATE_DISABLE_ECHO
  | STATE_DIALING1
  | STATE_DIALING2
  | STATE_PARSE_CLIP
  | STATE_ATA_SENT
  | STATE_CHECK_CALL
  | STATE_SETUP_USSD
  | STATE_SEND_USSD1
  | STATE_SEND_USSD2
  | STATE_CHECK_USSD
  | STATE_RECEIVED_USSD
  deriving DecidableEq, Repr

open State

/-- Numeric value of an enumerator: `STATE_IDLE = 0`, every later enumerator
is one more than the one before it. -/
def State.value : State → Nat
  | STATE_IDLE => 0
  | STATE_INIT => 1
  | STATE_SETUP_CMGF => 2
  | STATE_SETUP_CLIP => 3
  | STATE_CEREG => 4
  | STATE_CEREG_WAIT => 5
  | STATE_CGREG => 6
  | STATE_CGREG_WAIT => 7
  | STATE_CSQ => 8
  | STATE_CSQ_RESPONSE => 9
  | STATE_SENDING_SMS_1 => 10
  | STATE_SENDING_SMS_2 => 11
  | STATE_SENDING_SMS_3 => 12
  | STATE_CHECK_SMS => 13
  | STATE_PARSE_SMS_RESPONSE => 14
  | STATE_RECEIVE_SMS => 15
  | STATE_RECEIVED_SMS => 16
  | STATE_DISABLE_ECHO => 17
  | STATE_DIALING1 => 18
  | STATE_DIALING2 => 19
  | STATE_PARSE_CLIP => 20
  | STATE_ATA_SENT => 21
  | STATE_CHECK_CALL => 22
  | STATE_SETUP_USSD => 23
  | STATE_SEND_USSD1 => 24
  | STATE_SEND_USSD2 => 25
  | STATE_CHECK_USSD => 26
  | STATE_RECEIVED_USSD => 27

/-- Every enumerator of `State`, in declaration order. -/
def State.all : List State :=
  [STATE_IDLE, STATE_INIT, STATE_SETUP_CMGF, STATE_SETUP_CLIP, STATE_CEREG,
   STATE_CEREG_WAIT, STATE_CGREG, STATE_CGREG_WAIT, STATE_CSQ, STATE_CSQ_RESPONSE,
   STATE_SENDING_SMS_1, STATE_SENDING_SMS_2, STATE_SENDING_SMS_3, STATE_CHECK_SMS,
   STATE_PARSE_SMS_RESPONSE, STATE_RECEIVE_SMS, STATE_RECEIVED_SMS, STATE_DISABLE_ECHO,
   STATE_DIALING1, STATE_DIALING2, STATE_PARSE_CLIP, STATE_ATA_SENT, STATE_CHECK_CALL,
   STATE_SETUP_USSD, STATE_SEND_USSD1, STATE_SEND_USSD2, STATE_CHECK_USSD,
   STATE_RECEIVED_USSD]

/-- The enumerators that belong to the USSD flow: those whose name carries
`USSD` (`STATE_SETUP_USSD`, `STATE_SEND_USSD1`, `STATE_SEND_USSD2`,
`STATE_CHECK_USSD`, `STATE_RECEIVED_USSD`). -/
def State.isUssd : State → Bool
  | STATE_SETUP_USSD => true
  | STATE_SEND_USSD1 => true
  | STATE_SEND_USSD2 => true
  | STATE_CHECK_USSD => true
  | STATE_RECEIVED_USSD => true
  | _ => false

/-- The USSD enumerators, in declaration order. -/
def State.ussdStates : List State := State.all.filter State.isUssd

/-- Modelled from the spec: `CallbackManager` is a class of the host framework
and is not declared in the header.  Section 4.4 gives its contract: zero or
more listeners per event kind, invoked in registration order.  It is a list of
listeners; `add` appends. -/
structure CallbackManager (α : Type) where
  callbacks_ : List α

/-- Registration of a listener: it goes after every earlier one. -/
def CallbackManager.add {α : Type} (m : CallbackManager α) (callback : α) : CallbackManager α :=
  ⟨m.callbacks_ ++ [callback]⟩

/-- The `Sim7600Component` class: its data members, in declaration order.
Listeners act on a world `W` that stands for everything a callback may touch.
A byte is a natural number. -/
structure Sim7600Component (W : Type) where
  sender_ : String
  message_ : String
  read_buffer_ : List Nat
  read_pos_ : Nat
  parse_index_ : Nat
  watch_dog_ : Nat
  expect_ack_ : Bool
  state_ : State
  registered_ : Bool
  recipient_ : String
  outgoing_message_ : String
  ussd_ : String
  send_pending_ : Bool
  dial_pending_ : Bool
  connect_pending_ : Bool
  disconnect_pending_ : Bool
  send_ussd_pending_ : Bool
  call_state_ : Nat
  sms_received_callback_ : CallbackManager (String → String → W → W)
  incoming_call_callback_ : CallbackManager (String → W → W)
  call_connected_callback_ : CallbackManager (W → W)
  call_disconnected_callback_ : CallbackManager (W → W)
  ussd_received_callback_ : CallbackManager (String → W → W)

/-- What the members without a default member initializer hold after default
initialization: the header gives `read_buffer_` and the five `*_pending_`
flags no initializer, so their first values are whatever the storage held. -/
structure Indeterminate where
  read_buffer_ : Fin 1024 → Nat
  send_pending_ : Bool
  dial_pending_ : Bool
  connect_pending_ : Bool
  disconnect_pending_ : Bool
  send_ussd_pending_ : Bool

/-- Default construction of the component.  Members with a default member
initializer get it (`read_pos_{0}`, `parse_index_{0}`, `watch_dog_{0}`,
`expect_ack_{false}`, `state_{STATE_IDLE}`, `registered_{false}`,
`call_state_{6}`); strings and callback managers start empty; the members
without an initializer take the indeterminate values `u`. -/
def Sim7600Component.construct {W : Type} (u : Indeterminate) : Sim7600Component W where
  sender_ := ""
  message_ := ""
  read_buffer_ := List.ofFn u.read_buffer_
  read_pos_ := 0
  parse_index_ := 0
  watch_dog_ := 0
  expect_ack_ := false
  state_ := STATE_IDLE
  registered_ := false
  recipient_ := ""
  outgoing_message_ := ""
  ussd_ := ""
  send_pending_ := u.send_pending_
  dial_pending_ := u.dial_pending_
  connect_pending_ := u.connect_pending_
  disconnect_pending_ := u.disconnect_pending_
  send_ussd_pending_ := u.send_ussd_pending_
  call_state_ := 6
  sms_received_callback_ := ⟨[]⟩
  incoming_call_callback_ := ⟨[]⟩
  call_connected_callback_ := ⟨[]⟩
  call_disconnected_callback_ := ⟨[]⟩
  ussd_received_callback_ := ⟨[]⟩

/-- Storage in which every indeterminate byte is zero and every indeterminate
flag reads `true`. -/
def Indeterminate.allSet : Indeterminate where
  read_buffer_ := fun _ => 0
  send_pending_ := true
  dial_pending_ := true
  connect_pending_ := true
  disconnect_pending_ := true
  send_ussd_pending_ := true

/-! ## Event dispatcher: registration and invocation of listeners -/

section Dispatcher

variable {W : Type}

/-- Invocation of the listeners of one manager, first registered first;
`invoke` applies one listener to the arguments of the event. -/
def CallbackManager.call {α : Type} (m : CallbackManager α) (invoke : α → W → W) (w : W) : W :=
  m.callbacks_.foldl (fun acc cb => invoke cb acc) w

/-- Header: `this->sms_received_callback_.add(std::move(callback));`. -/
def Sim7600Component.add_on_sms_received_callback (c : Sim7600Component W)
    (callback : String → String → W → W) : Sim7600Component W :=
  { c with sms_received_callback_ := c.sms_received_callback_.add callback }

/-- Header: `this->incoming_call_callback_.add(std::move(callback));`. -/
def Sim7600Component.add_on_incoming_call_callback (c : Sim7600Component W)
    (callback : String → W → W) : Sim7600Component W :=
  { c with incoming_call_callback_ := c.incoming_call_callback_.add callback }

/-- Header: `this->call_connected_callback_.add(std::move(callback));`. -/
def Sim7600Component.add_on_call_connected_callback (c : Sim7600Component W)
    (callback : W → W) : Sim7600Component W :=
  { c with call_connected_callback_ := c.call_connected_callback_.add callback }

/-- Header: `this->call_disconnected_callback_.add(std::move(callback));`. -/
def Sim7600Component.add_on_call_disconnected_callback (c : Sim7600Component W)
    (callback : W → W) : Sim7600Component W :=
  { c with call_disconnected_callback_ := c.call_disconnected_callback_.add callback }

/-- Header: `this->ussd_received_callback_.add(std::move(callback));`. -/
def Sim7600Component.add_on_ussd_received_callback (c : Sim7600Component W)
    (callback : String → W → W) : Sim7600Component W :=
  { c with ussd_received_callback_ := c.ussd_received_callback_.add callback }

/-- One call of an `add_on_*_callback` member, with the listener it passes. -/
inductive Registration (W : Type) where
  | sms_received (callback : String → String → W → W)
  | incoming_call (callback : String → W → W)
  | call_connected (callback : W → W)
  | call_disconnected (callback : W → W)
  | ussd_received (callback : String → W → W)

/-- Performs a registration through the `add_on_*_callback` member of its kind. -/
def Sim7600Component.register (c : Sim7600Component W) : Registration W → Sim7600Component W
  | .sms_received cb => c.add_on_sms_received_callback cb
  | .incoming_call cb => c.add_on_incoming_call_callback cb
  | .call_connected cb => c.add_on_call_connected_callback cb
  | .call_disconnected cb => c.add_on_call_disconnected_callback cb
  | .ussd_received cb => c.add_on_ussd_received_callback cb

/-- Performs a sequence of registrations, in order. -/
def Sim7600Component.registerAll (c : Sim7600Component W) (rs : List (Registration W)) :
    Sim7600Component W :=
  rs.foldl Sim7600Component.register c

/-- The listener of a registration if it is an sms-received one. -/
def Registration.smsReceived? : Registration W → Option (String → String → W → W)
  | .sms_received cb => some cb
  | _ => none

/-- The listener of a registration if it is an incoming-call one. -/
def Registration.incomingCall? : Registration W → Option (String → W → W)
  | .incoming_call cb => some cb
  | _ => none

/-- The listener of a registration if it is a call-connected one. -/
def Registration.callConnected? : Registration W → Option (W → W)
  | .call_connected cb => some cb
  | _ => none

/-- The listener of a registration if it is a call-disconnected one. -/
def Registration.callDisconnected? : Registration W → Option (W → W)
  | .call_disconnected cb => some cb
  | _ => none

/-- The listener of a registration if it is a ussd-received one. -/
def Registration.ussdReceived? : Registration W → Option (String → W → W)
  | .ussd_received cb => some cb
  | _ => none

/-- The lambda that the constructor of `Sim7600ReceivedMessageTrigger` registers:
`[this](const std::string &message, const std::string &sender)
 { this->trigger(message, sender); }`.  `trigger` is the member of the
framework class `Trigger<std::string, std::string>`, taken as a parameter. -/
def Sim7600ReceivedMessageTrigger.callback (trigger : String → String → W → W)
    (message sender : String) : W → W :=
  trigger message sender

/-- Constructor of `Sim7600ReceivedMessageTrigger`:
`parent->add_on_sms_received_callback(<the lambda>)`. -/
def Sim7600ReceivedMessageTrigger.construct (trigger : String → String → W → W)
    (parent : Sim7600Component W) : Sim7600Component W :=
  parent.add_on_sms_received_callback (Sim7600ReceivedMessageTrigger.callback trigger)

/-- Dispatch of the sms-received event for the message held in the members
`sender_` and `message_`.  The call itself is in the implementation file,
which is not part of the header; the order of its two arguments is the one
declared by the listener that the header registers, whose first parameter is
named `message` and whose second is named `sender`. -/
def Sim7600Component.dispatch_sms_received (c : Sim7600Component W) (w : W) : W :=
  c.sms_received_callback_.call (fun cb => cb c.message_ c.sender_) w

/-- The component while it holds a received SMS from `sender` with body `body`. -/
def Sim7600Component.holdingSms (c : Sim7600Component W) (sender body : String) :
    Sim7600Component W :=
  { c with sender_ := sender, message_ := body }

end Dispatcher

/-- What a `Trigger<std::string, std::string>` was fired with: its first and
its second argument. -/
structure Fired where
  first : String
  second : String
  deriving DecidableEq, Repr

/-- A trigger that records each firing, oldest first. -/
def recordingTrigger (a b : String) (log : List Fired) : List Fired :=
  log ++ [⟨a, b⟩]

/-! ## Automation actions -/

/-- The public operations of the component that the actions call.  The header
only declares them, so an action takes them as a parameter; `σ` is the state
they act on. -/
structure Operations (σ : Type) where
  send_sms : String → String → σ → σ
  send_ussd : String → σ → σ
  dial : String → σ → σ
  connect : σ → σ
  disconnect : σ → σ

/-- `Sim7600SendSmsAction<Ts...>`: the two `TEMPLATABLE_VALUE` members; a
templatable value resolves to a string from the arguments `x` of `play`. -/
structure Sim7600SendSmsAction (X : Type) where
  recipient_ : X → String
  message_ : X → String

/-- `Sim7600SendUssdAction<Ts...>`. -/
structure Sim7600SendUssdAction (X : Type) where
  ussd_ : X → String

/-- `Sim7600DialAction<Ts...>`. -/
structure Sim7600DialAction (X : Type) where
  recipient_ : X → String

/-- `Sim7600ConnectAction<Ts...>`: no templatable member. -/
structure Sim7600ConnectAction (X : Type) where
  mk ::

/-- `Sim7600DisconnectAction<Ts...>`: no templatable member. -/
structure Sim7600DisconnectAction (X : Type) where
  mk ::

section Actions

variable {X σ : Type}

/-- Header: `auto recipient = this->recipient_.value(x...);
auto message = this->message_.value(x...);
this->parent_->send_sms(recipient, message);`. -/
def Sim7600SendSmsAction.play (a : Sim7600SendSmsAction X) (parent_ : Operations σ) (x : X) :
    σ → σ :=
  let recipient := a.recipient_ x
  let message := a.message_ x
  parent_.send_sms recipient message

/-- Header: `auto ussd_code = this->ussd_.value(x...);
this->parent_->send_ussd(ussd_code);`. -/
def Sim7600SendUssdAction.play (a : Sim7600SendUssdAction X) (parent_ : Operations σ) (x : X) :
    σ → σ :=
  let ussd_code := a.ussd_ x
  parent_.send_ussd ussd_code

/-- Header: `auto recipient = this->recipient_.value(x...);
this->parent_->dial(recipient);`. -/
def Sim7600DialAction.play (a : Sim7600DialAction X) (parent_ : Operations σ) (x : X) :
    σ → σ :=
  let recipient := a.recipient_ x
  parent_.dial recipient

/-- Header: `this->parent_->connect();`. -/
def Sim7600ConnectAction.play (_a : Sim7600ConnectAction X) (parent_ : Operations σ) (_x : X) :
    σ → σ :=
  parent_.connect

/-- Header: `this->parent_->disconnect();`. -/
def Sim7600DisconnectAction.play (_a : Sim7600DisconnectAction X) (parent_ : Operations σ)
    (_x : X) : σ → σ :=
  parent_.disconnect

end Actions

/-- One call of a public operation, with its arguments in order. -/
inductive OperationCall where
  | send_sms (recipient message : String)
  | send_ussd (ussd_code : String)
  | dial (recipient : String)
  | connect
  | disconnect
  deriving DecidableEq, Repr

/-- A parent whose operations only record that they were called. -/
def Operations.recording : Operations (List OperationCall) where
  send_sms := fun recipient message log => log ++ [.send_sms recipient message]
  send_ussd := fun ussd_code log => log ++ [.send_ussd ussd_code]
  dial := fun recipient log => log ++ [.dial recipient]
  connect := fun log => log ++ [.connect]
  disconnect := fun log => log ++ [.disconnect]

/-! ## Line framer (read buffer) -/

section Framer

variable {W : Type}

/-- Modelled from the spec: the body of `loop()` is in the implementation file,
not in the header.  Section 3 (Read Buffer) asks that the write cursor never
exceed the capacity and that an overflow be handled by a reset; section 4.1
asks that on exhaustion the oldest unfinished line be dropped.  This is the
index at which the next received byte is stored: the cursor itself or, once
the cursor has reached the capacity, the start of the buffer. -/
def Sim7600Component.store_index (c : Sim7600Component W) : Nat :=
  if c.read_pos_ = SIM7600_READ_BUFFER_LENGTH then 0 else c.read_pos_

/-- Modelled from the spec: one received byte in the line framer of section
4.1 (the body of `loop()` is not in the header).  The byte is stored at
`store_index`.  A terminator completes a line: the bytes before it are
emitted and the cursor returns to the start.  Any other byte stays buffered
and the cursor moves on by one.  The result is the component and the lines
emitted (none or one).  The terminator byte is the parameter `t`. -/
def Sim7600Component.loop_byte (t : Nat) (byte : Nat) (c : Sim7600Component W) :
    Sim7600Component W × List (List Nat) :=
  let pos := c.store_index
  let buf := c.read_buffer_.set pos byte
  if byte = t then
    ({ c with read_buffer_ := buf, read_pos_ := 0 }, [buf.take pos])
  else
    ({ c with read_buffer_ := buf, read_pos_ := pos + 1 }, [])

/-- Modelled from the spec: one call of `loop()` (body not in the header),
which drains the bytes that one serial read made available, in order, and
yields the lines completed meanwhile (section 4.1, `feed(bytes)`). -/
def Sim7600Component.loop (t : Nat) : List Nat → Sim7600Component W →
    Sim7600Component W × List (List Nat)
  | [], c => (c, [])
  | byte :: rest, c =>
    let r := c.loop_byte t byte
    let r2 := Sim7600Component.loop t rest r.1
    (r2.1, r.2 ++ r2.2)

/-- Successive calls of `loop()`, one per serial read, with all the lines they
emit, in order. -/
def Sim7600Component.loop_reads (t : Nat) : List (List Nat) → Sim7600Component W →
    Sim7600Component W × List (List Nat)
  | [], c => (c, [])
  | chunk :: rest, c =>
    let r := c.loop t chunk
    let r2 := Sim7600Component.loop_reads t rest r.1
    (r2.1, r.2 ++ r2.2)

/-- The byte stream of a list of lines: each line followed by the terminator. -/
def wire (t : Nat) (lines : List (List Nat)) : List Nat :=
  (lines.map (fun l => l ++ [t])).flatten

end Framer

/-! ## Request tracker -/

section Requests

variable {W : Type}

/-- Modelled from the spec: the body of `send_sms` is not in the header.
Section 3 (PendingRequest): the call sets the flag and overwrites the
parameters; the members are the ones the header declares. -/
def Sim7600Component.send_sms (recipient message : String) (c : Sim7600Component W) :
    Sim7600Component W :=
  { c with recipient_ := recipient, outgoing_message_ := message, send_pending_ := true }

/-- Modelled from the spec: the body of `send_ussd` is not in the header.
Section 3 (PendingRequest): sets the flag and overwrites the parameter. -/
def Sim7600Component.send_ussd (ussd_code : String) (c : Sim7600Component W) :
    Sim7600Component W :=
  { c with ussd_ := ussd_code, send_ussd_pending_ := true }

/-- Modelled from the spec: the body of `dial` is not in the header.
Section 3 (PendingRequest): sets the flag and overwrites the parameter
(last writer wins, no queue). -/
def Sim7600Component.dial (recipient : String) (c : Sim7600Component W) :
    Sim7600Component W :=
  { c with recipient_ := recipient, dial_pending_ := true }

/-- Modelled from the spec: the body of `connect` is not in the header.
Section 3 (PendingRequest): sets the flag. -/
def Sim7600Component.connect (c : Sim7600Component W) : Sim7600Component W :=
  { c with connect_pending_ := true }

/-- Modelled from the spec: the body of `disconnect` is not in the header.
Section 3 (PendingRequest): sets the flag. -/
def Sim7600Component.disconnect (c : Sim7600Component W) : Sim7600Component W :=
  { c with disconnect_pending_ := true }

/-- The component as a parent of the automation actions. -/
def Sim7600Component.operations : Operations (Sim7600Component W) where
  send_sms := Sim7600Component.send_sms
  send_ussd := Sim7600Component.send_ussd
  dial := Sim7600Component.dial
  connect := Sim7600Component.connect
  disconnect := Sim7600Component.disconnect

/-- A user request that the engine starts to act on, with its parameters. -/
inductive Request where
  | send_sms (recipient message : String)
  | dial (recipient : String)
  | send_ussd (ussd_code : String)
  | connect
  | disconnect
  deriving DecidableEq, Repr

/-- Whether a request is a dial request. -/
def Request.isDial : Request → Bool
  | .dial _ => true
  | _ => false

/-- Modelled from the spec: section 4.3 names the state entered when the
engine starts on a request (SMS: SendingSms1, dial: Dialing1, USSD: SetupUssd,
answering a call: AtaSent); it names none for a disconnect. -/
def Request.entry_state : Request → Option State
  | .send_sms _ _ => some STATE_SENDING_SMS_1
  | .dial _ => some STATE_DIALING1
  | .send_ussd _ => some STATE_SETUP_USSD
  | .connect => some STATE_ATA_SENT
  | .disconnect => none

/-- Modelled from the spec: the pending user request of highest priority,
in the fixed order of section 4.3 step 3 (send-SMS, dial, send-USSD, connect,
disconnect), with the parameters held for it. -/
def Sim7600Component.pending_request (c : Sim7600Component W) : Option Request :=
  if c.send_pending_ then some (.send_sms c.recipient_ c.outgoing_message_)
  else if c.dial_pending_ then some (.dial c.recipient_)
  else if c.send_ussd_pending_ then some (.send_ussd c.ussd_)
  else if c.connect_pending_ then some .connect
  else if c.disconnect_pending_ then some .disconnect
  else none

/-- Clears the pending flag of the request that is being acted on. -/
def Sim7600Component.clear_pending (c : Sim7600Component W) : Request → Sim7600Component W
  | .send_sms _ _ => { c with send_pending_ := false }
  | .dial _ => { c with dial_pending_ := false }
  | .send_ussd _ => { c with send_ussd_pending_ := false }
  | .connect => { c with connect_pending_ := false }
  | .disconnect => { c with disconnect_pending_ := false }

/-- Modelled from the spec: the user-request part of step 3 of a driver tick
(section 4.3; the body of `update()` is not in the header).  When the state is
Idle the engine takes the pending request of highest priority, clears its
flag, enters its entry state and resets the watchdog; the request it starts
on is returned.  In any other state, and with nothing pending, nothing
happens. -/
def Sim7600Component.service_request (c : Sim7600Component W) :
    Sim7600Component W × Option Request :=
  if c.state_ = STATE_IDLE then
    match c.pending_request with
    | some r =>
      let c1 := c.clear_pending r
      ({ c1 with state_ := (r.entry_state).getD c1.state_, watch_dog_ := 0 }, some r)
    | none => (c, none)
  else (c, none)

/-- Modelled from the spec: what the engine may do to the component apart
from servicing a request (section 3): enter a state, which resets the
watchdog; let the watchdog count one more tick (it is an 8-bit counter);
record the registration status through `set_registered_`; record the call
state; fill or clear the in-flight SMS context. -/
inductive EngineEffect where
  | enter (s : State)
  | await
  | set_registered_ (registered : Bool)
  | set_call_state (code : Nat)
  | set_sms_context (sender message : String)

/-- Modelled from the spec: the effect of one `EngineEffect` on the members. -/
def Sim7600Component.engine (c : Sim7600Component W) : EngineEffect → Sim7600Component W
  | .enter s => { c with state_ := s, watch_dog_ := 0 }
  | .await => { c with watch_dog_ := (c.watch_dog_ + 1) % 256 }
  | .set_registered_ b => { c with registered_ := b }
  | .set_call_state code => { c with call_state_ := code % 256 }
  | .set_sms_context sender message => { c with sender_ := sender, message_ := message }

/-- Everything that can happen to a component: a serial read handled by
`loop()`, a public operation, a listener registration, the engine servicing a
request, any other engine effect. -/
inductive Operation (W : Type) where
  | loop (bytes : List Nat)
  | send_sms (recipient message : String)
  | send_ussd (ussd_code : String)
  | dial (recipient : String)
  | connect
  | disconnect
  | register (r : Registration W)
  | service_request
  | engine (e : EngineEffect)

/-- Performs one operation; `t` is the line terminator. -/
def Sim7600Component.perform (t : Nat) (c : Sim7600Component W) : Operation W → Sim7600Component W
  | .loop bytes => (c.loop t bytes).1
  | .send_sms recipient message => c.send_sms recipient message
  | .send_ussd ussd_code => c.send_ussd ussd_code
  | .dial recipient => c.dial recipient
  | .connect => c.connect
  | .disconnect => c.disconnect
  | .register r => c.register r
  | .service_request => c.service_request.1
  | .engine e => c.engine e

/-- Performs a sequence of operations, in order. -/
def Sim7600Component.performAll (t : Nat) (c : Sim7600Component W) (ops : List (Operation W)) :
    Sim7600Component W :=
  ops.foldl (Sim7600Component.perform t) c

end Requests

/-- Storage in which every indeterminate byte is zero and every indeterminate
flag reads `false`. -/
def Indeterminate.allClear : Indeterminate where
  read_buffer_ := fun _ => 0
  send_pending_ := false
  dial_pending_ := false
  connect_pending_ := false
  disconnect_pending_ := false
  send_ussd_pending_ := false

/-- A run of the engine: each step is either the servicing of a request
(`none`) or another engine effect (`some e`).  The result is the component
and the requests the engine started on, oldest first. -/
def Sim7600Component.engine_run {W : Type} : List (Option EngineEffect) → Sim7600Component W →
    Sim7600Component W × List Request
  | [], c => (c, [])
  | none :: rest, c =>
    let r := c.service_request
    let r2 := Sim7600Component.engine_run rest r.1
    (r2.1, r.2.toList ++ r2.2)
  | some e :: rest, c => Sim7600Component.engine_run rest (c.engine e)

/-! ## Theorems: construction and the state enumeration -/

/-- Claim C8: a freshly constructed component, whatever the uninitialized
storage held, is in `STATE_IDLE`, whose numeric value is 0; it is
unregistered, its watchdog counter and its read cursor are 0, and it expects
no acknowledgement. -/
theorem construct_initial_engine_state {W : Type} (u : Indeterminate) :
    (Sim7600Component.construct u : Sim7600Component W).state_ = STATE_IDLE ∧
    STATE_IDLE.value = 0 ∧
    (Sim7600Component.construct u : Sim7600Component W).registered_ = false ∧
    (Sim7600Component.construct u : Sim7600Component W).watch_dog_ = 0 ∧
    (Sim7600Component.construct u : Sim7600Component W).read_pos_ = 0 ∧
    (Sim7600Component.construct u : Sim7600Component W).expect_ack_ = false :=
  ⟨rfl, rfl, rfl, rfl, rfl, rfl⟩

/-- The default member initializer of `call_state_` is 6. -/
theorem construct_call_state {W : Type} (u : Indeterminate) :
    (Sim7600Component.construct u : Sim7600Component W).call_state_ = 6 :=
  rfl

/-- Claim C6, the code at the failing input: default construction over storage
whose flag bytes read `true` yields a component with all five pending flags
set although no public operation was called. -/
theorem construct_pending_flags_follow_storage :
    (Sim7600Component.construct Indeterminate.allSet : Sim7600Component Unit).send_pending_ = true ∧
    (Sim7600Component.construct Indeterminate.allSet : Sim7600Component Unit).dial_pending_ = true ∧
    (Sim7600Component.construct Indeterminate.allSet : Sim7600Component Unit).send_ussd_pending_ = true ∧
    (Sim7600Component.construct Indeterminate.allSet : Sim7600Component Unit).connect_pending_ = true ∧
    (Sim7600Component.construct Indeterminate.allSet : Sim7600Component Unit).disconnect_pending_ = true :=
  ⟨rfl, rfl, rfl, rfl, rfl⟩

/-- The numeric values of the enumerators are pairwise distinct. -/
theorem State.value_injective : Function.Injective State.value := by
  intro a b h
  cases a <;> cases b <;> first | rfl | (exact absurd h (by decide))

/-- Claim C9 as stated fails: the USSD enumerators are not four in number. -/
theorem ussd_states_not_four :
    ¬ (State.ussdStates.length = 4 ∧ Function.Injective State.value) := by
  intro h
  exact absurd h.1 (by decide)

/-- Claim C9, amended: the enumeration has exactly five USSD states (setup,
two send states, check, received), it has 28 enumerators in all, every state
is one of them, and their numeric values are pairwise distinct. -/
theorem ussd_states_five_and_values_distinct :
    State.ussdStates = [STATE_SETUP_USSD, STATE_SEND_USSD1, STATE_SEND_USSD2,
      STATE_CHECK_USSD, STATE_RECEIVED_USSD] ∧
    State.ussdStates.length = 5 ∧
    State.all.length = 28 ∧
    (∀ s : State, s ∈ State.all) ∧
    State.all.Nodup ∧
    (∀ a b : State, a ≠ b → a.value ≠ b.value) := by
  refine ⟨by decide, by decide, by decide, ?_, by decide, ?_⟩
  · intro s
    cases s <;> decide
  · intro a b hab hv
    exact hab (State.value_injective hv)

/-! ## Theorems: automation actions -/

/-- Claim C10: every action forwards to its own public operation with the
resolved parameters in declaration order, and on a parent that records its
calls each `play` adds exactly one call, the one of its own operation. -/
theorem actions_forward_to_own_operation {X σ : Type} (parent_ : Operations σ) (x : X)
    (sms : Sim7600SendSmsAction X) (ussd : Sim7600SendUssdAction X)
    (dialA : Sim7600DialAction X) (conn : Sim7600ConnectAction X)
    (disc : Sim7600DisconnectAction X) (log : List OperationCall) :
    sms.play parent_ x = parent_.send_sms (sms.recipient_ x) (sms.message_ x) ∧
    ussd.play parent_ x = parent_.send_ussd (ussd.ussd_ x) ∧
    dialA.play parent_ x = parent_.dial (dialA.recipient_ x) ∧
    conn.play parent_ x = parent_.connect ∧
    disc.play parent_ x = parent_.disconnect ∧
    sms.play Operations.recording x log
      = log ++ [OperationCall.send_sms (sms.recipient_ x) (sms.message_ x)] ∧
    ussd.play Operations.recording x log = log ++ [OperationCall.send_ussd (ussd.ussd_ x)] ∧
    dialA.play Operations.recording x log = log ++ [OperationCall.dial (dialA.recipient_ x)] ∧
    conn.play Operations.recording x log = log ++ [OperationCall.connect] ∧
    disc.play Operations.recording x log = log ++ [OperationCall.disconnect] :=
  ⟨rfl, rfl, rfl, rfl, rfl, rfl, rfl, rfl, rfl, rfl⟩

/-! ## Theorems: event dispatcher -/

/-- After a sequence of registrations every listener list is the earlier list
followed by the listeners registered for its kind, in registration order. -/
theorem registerAll_lists {W : Type} (rs : List (Registration W)) :
    ∀ c : Sim7600Component W,
    (c.registerAll rs).sms_received_callback_.callbacks_
      = c.sms_received_callback_.callbacks_ ++ rs.filterMap Registration.smsReceived? ∧
    (c.registerAll rs).incoming_call_callback_.callbacks_
      = c.incoming_call_callback_.callbacks_ ++ rs.filterMap Registration.incomingCall? ∧
    (c.registerAll rs).call_connected_callback_.callbacks_
      = c.call_connected_callback_.callbacks_ ++ rs.filterMap Registration.callConnected? ∧
    (c.registerAll rs).call_disconnected_callback_.callbacks_
      = c.call_disconnected_callback_.callbacks_
          ++ rs.filterMap Registration.callDisconnected? ∧
    (c.registerAll rs).ussd_received_callback_.callbacks_
      = c.ussd_received_callback_.callbacks_ ++ rs.filterMap Registration.ussdReceived? := by
  induction rs with
  | nil => intro c; simp [Sim7600Component.registerAll]
  | cons r rs ih =>
    intro c
    have h := ih (c.register r)
    simp only [Sim7600Component.registerAll, List.foldl_cons] at h ⊢
    obtain ⟨h1, h2, h3, h4, h5⟩ := h
    rw [h1, h2, h3, h4, h5]
    cases r <;>
      simp [Sim7600Component.register, Sim7600Component.add_on_sms_received_callback,
        Sim7600Component.add_on_incoming_call_callback,
        Sim7600Component.add_on_call_connected_callback,
        Sim7600Component.add_on_call_disconnected_callback,
        Sim7600Component.add_on_ussd_received_callback, CallbackManager.add,
        Registration.smsReceived?, Registration.incomingCall?, Registration.callConnected?,
        Registration.callDisconnected?, Registration.ussdReceived?, List.filterMap_cons]

/-- Claim C1: on a fresh component, after any sequence of registrations made
through the `add_on_*_callback` members, the listener list of each of the
five kinds is exactly the listeners registered for that kind, in registration
order; a single registration appends its listener to the list of its kind and
leaves the other four lists unchanged; and firing an event runs the listeners
of its kind in registration order. -/
theorem listeners_in_registration_order {W : Type} (u : Indeterminate)
    (rs : List (Registration W)) (c : Sim7600Component W)
    (f2 : String → String → W → W) (f1 g1 : String → W → W) (f0 g0 : W → W)
    (a b : String) (w : W) :
    ((Sim7600Component.construct u).registerAll rs).sms_received_callback_.callbacks_
      = rs.filterMap Registration.smsReceived? ∧
    ((Sim7600Component.construct u).registerAll rs).incoming_call_callback_.callbacks_
      = rs.filterMap Registration.incomingCall? ∧
    ((Sim7600Component.construct u).registerAll rs).call_connected_callback_.callbacks_
      = rs.filterMap Registration.callConnected? ∧
    ((Sim7600Component.construct u).registerAll rs).call_disconnected_callback_.callbacks_
      = rs.filterMap Registration.callDisconnected? ∧
    ((Sim7600Component.construct u).registerAll rs).ussd_received_callback_.callbacks_
      = rs.filterMap Registration.ussdReceived? ∧
    -- one registration: append to its own list, the other four untouched
    ((c.add_on_sms_received_callback f2).sms_received_callback_.callbacks_
        = c.sms_received_callback_.callbacks_ ++ [f2] ∧
      (c.add_on_sms_received_callback f2).incoming_call_callback_ = c.incoming_call_callback_ ∧
      (c.add_on_sms_received_callback f2).call_connected_callback_
        = c.call_connected_callback_ ∧
      (c.add_on_sms_received_callback f2).call_disconnected_callback_
        = c.call_disconnected_callback_ ∧
      (c.add_on_sms_received_callback f2).ussd_received_callback_
        = c.ussd_received_callback_) ∧
    ((c.add_on_incoming_call_callback f1).incoming_call_callback_.callbacks_
        = c.incoming_call_callback_.callbacks_ ++ [f1] ∧
      (c.add_on_incoming_call_callback f1).sms_received_callback_ = c.sms_received_callback_ ∧
      (c.add_on_incoming_call_callback f1).call_connected_callback_
        = c.call_connected_callback_ ∧
      (c.add_on_incoming_call_callback f1).call_disconnected_callback_
        = c.call_disconnected_callback_ ∧
      (c.add_on_incoming_call_callback f1).ussd_received_callback_
        = c.ussd_received_callback_) ∧
    ((c.add_on_call_connected_callback f0).call_connected_callback_.callbacks_
        = c.call_connected_callback_.callbacks_ ++ [f0] ∧
      (c.add_on_call_connected_callback f0).sms_received_callback_ = c.sms_received_callback_ ∧
      (c.add_on_call_connected_callback f0).incoming_call_callback_
        = c.incoming_call_callback_ ∧
      (c.add_on_call_connected_callback f0).call_disconnected_callback_
        = c.call_disconnected_callback_ ∧
      (c.add_on_call_connected_callback f0).ussd_received_callback_
        = c.ussd_received_callback_) ∧
    ((c.add_on_call_disconnected_callback g0).call_disconnected_callback_.callbacks_
        = c.call_disconnected_callback_.callbacks_ ++ [g0] ∧
      (c.add_on_call_disconnected_callback g0).sms_received_callback_
        = c.sms_received_callback_ ∧
      (c.add_on_call_disconnected_callback g0).incoming_call_callback_
        = c.incoming_call_callback_ ∧
      (c.add_on_call_disconnected_callback g0).call_connected_callback_
        = c.call_connected_callback_ ∧
      (c.add_on_call_disconnected_callback g0).ussd_received_callback_
        = c.ussd_received_callback_) ∧
    ((c.add_on_ussd_received_callback g1).ussd_received_callback_.callbacks_
        = c.ussd_received_callback_.callbacks_ ++ [g1] ∧
      (c.add_on_ussd_received_callback g1).sms_received_callback_ = c.sms_received_callback_ ∧
      (c.add_on_ussd_received_callback g1).incoming_call_callback_
        = c.incoming_call_callback_ ∧
      (c.add_on_ussd_received_callback g1).call_connected_callback_
        = c.call_connected_callback_ ∧
      (c.add_on_ussd_received_callback g1).call_disconnected_callback_
        = c.call_disconnected_callback_) ∧
    -- firing runs the registered listeners of the kind, first registered first
    ((Sim7600Component.construct u).registerAll rs).sms_received_callback_.call
        (fun cb => cb a b) w
      = (rs.filterMap Registration.smsReceived?).foldl (fun acc cb => cb a b acc) w ∧
    ((Sim7600Component.construct u).registerAll rs).incoming_call_callback_.call
        (fun cb => cb a) w
      = (rs.filterMap Registration.incomingCall?).foldl (fun acc cb => cb a acc) w ∧
    ((Sim7600Component.construct u).registerAll rs).call_connected_callback_.call
        (fun cb => cb) w
      = (rs.filterMap Registration.callConnected?).foldl (fun acc cb => cb acc) w ∧
    ((Sim7600Component.construct u).registerAll rs).call_disconnected_callback_.call
        (fun cb => cb) w
      = (rs.filterMap Registration.callDisconnected?).foldl (fun acc cb => cb acc) w ∧
    ((Sim7600Component.construct u).registerAll rs).ussd_received_callback_.call
        (fun cb => cb a) w
      = (rs.filterMap Registration.ussdReceived?).foldl (fun acc cb => cb a acc) w := by
  obtain ⟨h1, h2, h3, h4, h5⟩ := registerAll_lists rs (Sim7600Component.construct u)
  have e1 : (Sim7600Component.construct u : Sim7600Component W).sms_received_callback_.callbacks_
      = [] := rfl
  have e2 : (Sim7600Component.construct u : Sim7600Component W).incoming_call_callback_.callbacks_
      = [] := rfl
  have e3 : (Sim7600Component.construct u : Sim7600Component W).call_connected_callback_.callbacks_
      = [] := rfl
  have e4 :
      (Sim7600Component.construct u : Sim7600Component W).call_disconnected_callback_.callbacks_
      = [] := rfl
  have e5 : (Sim7600Component.construct u : Sim7600Component W).ussd_received_callback_.callbacks_
      = [] := rfl
  rw [e1, List.nil_append] at h1
  rw [e2, List.nil_append] at h2
  rw [e3, List.nil_append] at h3
  rw [e4, List.nil_append] at h4
  rw [e5, List.nil_append] at h5
  refine ⟨h1, h2, h3, h4, h5, ⟨rfl, rfl, rfl, rfl, rfl⟩, ⟨rfl, rfl, rfl, rfl, rfl⟩,
    ⟨rfl, rfl, rfl, rfl, rfl⟩, ⟨rfl, rfl, rfl, rfl, rfl⟩, ⟨rfl, rfl, rfl, rfl, rfl⟩,
    ?_, ?_, ?_, ?_, ?_⟩
  · simp only [CallbackManager.call, h1]
  · simp only [CallbackManager.call, h2]
  · simp only [CallbackManager.call, h3]
  · simp only [CallbackManager.call, h4]
  · simp only [CallbackManager.call, h5]

/-- Claim C2 as stated fails: with a recording trigger attached to a fresh
component, the dispatch of an SMS from sender `s` with body `b` does not
always fire the trigger with `(s, b)`. -/
theorem sms_trigger_not_sender_first :
    ¬ ∀ s b : String,
      ((Sim7600ReceivedMessageTrigger.construct recordingTrigger
          (Sim7600Component.construct Indeterminate.allSet)).holdingSms s b).dispatch_sms_received
        [] = [Fired.mk s b] := by
  intro h
  have h1 := h "+15551234567" "hello"
  have h2 : ((Sim7600ReceivedMessageTrigger.construct recordingTrigger
      (Sim7600Component.construct Indeterminate.allSet)).holdingSms "+15551234567"
        "hello").dispatch_sms_received [] = [Fired.mk "hello" "+15551234567"] := rfl
  rw [h2] at h1
  exact absurd h1 (by decide)

/-- Claim C2, amended: the listener of `Sim7600ReceivedMessageTrigger` passes
its two arguments to the trigger in the order received, unaltered; those
arguments are the message body first and the sender second, so for an SMS from
sender `s` with body `b` the trigger attached to a fresh component fires
exactly once, with `(b, s)`. -/
theorem sms_trigger_message_first {W : Type} (trigger : String → String → W → W)
    (u : Indeterminate) (s b x y : String) (w : W) :
    Sim7600ReceivedMessageTrigger.callback trigger x y w = trigger x y w ∧
    ((Sim7600ReceivedMessageTrigger.construct trigger
        (Sim7600Component.construct u)).holdingSms s b).dispatch_sms_received w
      = trigger b s w ∧
    ((Sim7600ReceivedMessageTrigger.construct recordingTrigger
        (Sim7600Component.construct u)).holdingSms s b).dispatch_sms_received []
      = [Fired.mk b s] := by
  refine ⟨rfl, rfl, rfl⟩

/-! ## Theorems: line framer -/

/-- Storing at index `p` leaves the first `p` elements as they were. -/
theorem take_set_same {α : Type} (l : List α) (p : Nat) (a : α) :
    (l.set p a).take p = l.take p := by
  apply List.ext_getElem?
  intro i
  rw [List.getElem?_take, List.getElem?_take]
  split
  · rw [List.getElem?_set_ne (by omega)]
  · rfl

/-- Storing at an index inside the list extends the prefix before it by the
stored element. -/
theorem take_succ_set {α : Type} (l : List α) (p : Nat) (a : α) (h : p < l.length) :
    (l.set p a).take (p + 1) = l.take p ++ [a] := by
  rw [List.take_succ, take_set_same, List.getElem?_set_self h]
  rfl

section FramerLemmas

variable {W : Type}

/-- Draining a byte sequence is draining its first part and then the rest. -/
theorem loop_append (t : Nat) (xs ys : List Nat) :
    ∀ c : Sim7600Component W,
      c.loop t (xs ++ ys)
        = (((c.loop t xs).1.loop t ys).1, (c.loop t xs).2 ++ ((c.loop t xs).1.loop t ys).2) := by
  induction xs with
  | nil => intro c; simp [Sim7600Component.loop]
  | cons x xs ih =>
    intro c
    have h := ih (c.loop_byte t x).1
    show Sim7600Component.loop t (x :: (xs ++ ys)) c = _
    simp only [Sim7600Component.loop, h, List.append_assoc]

/-- Successive reads behave as one read of their concatenation. -/
theorem loop_reads_eq_loop (t : Nat) (chunks : List (List Nat)) :
    ∀ c : Sim7600Component W, c.loop_reads t chunks = c.loop t chunks.flatten := by
  induction chunks with
  | nil => intro c; rfl
  | cons ch rest ih =>
    intro c
    simp only [Sim7600Component.loop_reads, List.flatten_cons]
    rw [ih, loop_append]

/-- Bytes without a terminator that fit behind the cursor are buffered in
order and no line is emitted. -/
theorem loop_no_terminator (t : Nat) (l : List Nat) :
    ∀ c : Sim7600Component W, t ∉ l →
      c.read_pos_ + l.length ≤ SIM7600_READ_BUFFER_LENGTH →
      c.read_buffer_.length = SIM7600_READ_BUFFER_LENGTH →
      (c.loop t l).2 = [] ∧
      (c.loop t l).1.read_pos_ = c.read_pos_ + l.length ∧
      (c.loop t l).1.read_buffer_.length = SIM7600_READ_BUFFER_LENGTH ∧
      (c.loop t l).1.read_buffer_.take (c.read_pos_ + l.length)
        = c.read_buffer_.take c.read_pos_ ++ l := by
  induction l with
  | nil => intro c _ _ hlen; simp [Sim7600Component.loop, hlen]
  | cons b rest ih =>
    intro c ht hfit hlen
    have hb : b ≠ t := fun h => ht (by simp [h])
    have hrest : t ∉ rest := fun h => ht (by simp [h])
    simp only [List.length_cons] at hfit
    have hp : c.read_pos_ < SIM7600_READ_BUFFER_LENGTH := by omega
    have hidx : c.store_index = c.read_pos_ := by
      unfold Sim7600Component.store_index
      rw [if_neg (by omega)]
    have hstep : c.loop_byte t b
        = ({ c with read_buffer_ := c.read_buffer_.set c.read_pos_ b,
                    read_pos_ := c.read_pos_ + 1 }, []) := by
      unfold Sim7600Component.loop_byte
      simp only [hidx, if_neg hb]
    have h := ih { c with read_buffer_ := c.read_buffer_.set c.read_pos_ b,
                          read_pos_ := c.read_pos_ + 1 } hrest
      (by simp only; omega) (by simp only [List.length_set]; exact hlen)
    simp only [Sim7600Component.loop, hstep, List.nil_append, List.length_cons]
    obtain ⟨h1, h2, h3, h4⟩ := h
    refine ⟨h1, ?_, h3, ?_⟩
    · rw [h2]; simp only; omega
    · have e : c.read_pos_ + (rest.length + 1) = c.read_pos_ + 1 + rest.length := by omega
      rw [e, h4]
      simp only
      rw [take_succ_set _ _ _ (by rw [hlen]; exact hp)]
      simp [List.append_assoc]

/-- A complete line that starts at the beginning of the buffer and is shorter
than the buffer is emitted as it is, and the cursor returns to the start. -/
theorem loop_line (t : Nat) (l : List Nat) (c : Sim7600Component W) (ht : t ∉ l)
    (hshort : l.length < SIM7600_READ_BUFFER_LENGTH) (hpos : c.read_pos_ = 0)
    (hlen : c.read_buffer_.length = SIM7600_READ_BUFFER_LENGTH) :
    (c.loop t (l ++ [t])).2 = [l] ∧
    (c.loop t (l ++ [t])).1.read_pos_ = 0 ∧
    (c.loop t (l ++ [t])).1.read_buffer_.length = SIM7600_READ_BUFFER_LENGTH := by
  obtain ⟨h1, h2, h3, h4⟩ := loop_no_terminator t l c ht (by rw [hpos]; omega) hlen
  rw [hpos, Nat.zero_add] at h2 h4
  simp only [List.take_zero, List.nil_append] at h4
  rw [loop_append]
  have hidx : (c.loop t l).1.store_index = l.length := by
    unfold Sim7600Component.store_index
    rw [h2, if_neg (by omega)]
  simp only [Sim7600Component.loop, Sim7600Component.loop_byte, hidx, if_true, h1,
    List.nil_append, List.append_nil, List.length_set, take_set_same, h4, h3]
  exact ⟨trivial, trivial, trivial⟩

/-- Draining the byte stream of a list of short lines from an empty buffer
emits exactly those lines and ends with an empty buffer. -/
theorem loop_wire (t : Nat) (lines : List (List Nat)) :
    ∀ c : Sim7600Component W,
      (∀ l ∈ lines, t ∉ l ∧ l.length < SIM7600_READ_BUFFER_LENGTH) →
      c.read_pos_ = 0 → c.read_buffer_.length = SIM7600_READ_BUFFER_LENGTH →
      (c.loop t (wire t lines)).2 = lines ∧
      (c.loop t (wire t lines)).1.read_pos_ = 0 ∧
      (c.loop t (wire t lines)).1.read_buffer_.length = SIM7600_READ_BUFFER_LENGTH := by
  induction lines with
  | nil => intro c _ hpos hlen; exact ⟨rfl, hpos, hlen⟩
  | cons l rest ih =>
    intro c hl hpos hlen
    have hl0 := hl l (by simp)
    obtain ⟨a1, a2, a3⟩ := loop_line t l c hl0.1 hl0.2 hpos hlen
    obtain ⟨b1, b2, b3⟩ := ih (c.loop t (l ++ [t])).1
      (fun m hm => hl m (by simp [hm])) a2 a3
    have e : wire t (l :: rest) = (l ++ [t]) ++ wire t rest := by
      simp [wire]
    rw [e, loop_append]
    simp only [a1, b1, b2, b3]
    exact ⟨rfl, trivial, trivial⟩

end FramerLemmas

/-- The read buffer of a fresh component has the declared capacity. -/
theorem construct_read_buffer_length {W : Type} (u : Indeterminate) :
    (Sim7600Component.construct u : Sim7600Component W).read_buffer_.length
      = SIM7600_READ_BUFFER_LENGTH := by
  simp only [Sim7600Component.construct, List.length_ofFn, SIM7600_READ_BUFFER_LENGTH]

/-- Claim C3: chunk-boundary independence.  For a component with an empty
read buffer, a list of lines each free of the terminator and shorter than
the buffer, and any split of their byte stream into successive serial reads,
the framer emits exactly those lines, in order, just as when the whole stream
arrives in a single read, and it ends with an empty buffer. -/
theorem chunk_boundary_independence {W : Type} (t : Nat) (c : Sim7600Component W)
    (lines : List (List Nat)) (reads : List (List Nat))
    (hpos : c.read_pos_ = 0)
    (hlen : c.read_buffer_.length = SIM7600_READ_BUFFER_LENGTH)
    (hlines : ∀ l ∈ lines, t ∉ l ∧ l.length < SIM7600_READ_BUFFER_LENGTH)
    (hreads : reads.flatten = wire t lines) :
    (c.loop_reads t reads).2 = lines ∧
    (c.loop t (wire t lines)).2 = lines ∧
    (c.loop_reads t reads).2 = (c.loop t (wire t lines)).2 ∧
    (c.loop_reads t reads).1.read_pos_ = 0 := by
  obtain ⟨h1, h2, _⟩ := loop_wire t lines c hlines hpos hlen
  rw [loop_reads_eq_loop, hreads]
  exact ⟨h1, h1, rfl, h2⟩

/-- Witness for C3: the stream of the lines `OK` and the empty line, read in
two pieces that split the first line. -/
theorem chunk_boundary_independence_witness :
    ((Sim7600Component.construct Indeterminate.allClear : Sim7600Component Unit).read_pos_ = 0 ∧
      (Sim7600Component.construct Indeterminate.allClear : Sim7600Component Unit).read_buffer_.length
        = SIM7600_READ_BUFFER_LENGTH ∧
      (∀ l ∈ [[79, 75], []], 10 ∉ l ∧ l.length < SIM7600_READ_BUFFER_LENGTH) ∧
      [[79], [75, 10, 10]].flatten = wire 10 [[79, 75], []]) ∧
    (((Sim7600Component.construct Indeterminate.allClear : Sim7600Component Unit).loop_reads 10
        [[79], [75, 10, 10]]).2 = [[79, 75], []] ∧
      ((Sim7600Component.construct Indeterminate.allClear : Sim7600Component Unit).loop 10
        (wire 10 [[79, 75], []])).2 = [[79, 75], []] ∧
      ((Sim7600Component.construct Indeterminate.allClear : Sim7600Component Unit).loop_reads 10
        [[79], [75, 10, 10]]).2
        = ((Sim7600Component.construct Indeterminate.allClear : Sim7600Component Unit).loop 10
            (wire 10 [[79, 75], []])).2 ∧
      ((Sim7600Component.construct Indeterminate.allClear : Sim7600Component Unit).loop_reads 10
        [[79], [75, 10, 10]]).1.read_pos_ = 0) :=
  ⟨⟨rfl, construct_read_buffer_length _, by decide, by decide⟩,
    chunk_boundary_independence 10 _ [[79, 75], []] [[79], [75, 10, 10]] rfl
      (construct_read_buffer_length _) (by decide) (by decide)⟩

/-! ## Theorems: read-buffer bound -/

section BufferBound

variable {W : Type}

/-- Under the bound the next byte is stored inside the buffer. -/
theorem store_index_lt (c : Sim7600Component W)
    (hpos : c.read_pos_ ≤ SIM7600_READ_BUFFER_LENGTH) :
    c.store_index < SIM7600_READ_BUFFER_LENGTH := by
  unfold Sim7600Component.store_index
  split
  · simp [SIM7600_READ_BUFFER_LENGTH]
  · omega

/-- One received byte keeps the cursor within the capacity and the buffer at
its size. -/
theorem loop_byte_bound (t b : Nat) (c : Sim7600Component W)
    (hpos : c.read_pos_ ≤ SIM7600_READ_BUFFER_LENGTH)
    (hlen : c.read_buffer_.length = SIM7600_READ_BUFFER_LENGTH) :
    (c.loop_byte t b).1.read_pos_ ≤ SIM7600_READ_BUFFER_LENGTH ∧
    (c.loop_byte t b).1.read_buffer_.length = SIM7600_READ_BUFFER_LENGTH := by
  have h := store_index_lt c hpos
  unfold Sim7600Component.loop_byte
  by_cases hb : b = t
  · simp only [hb, if_true, List.length_set]
    exact ⟨Nat.zero_le _, hlen⟩
  · simp only [hb, if_false, List.length_set]
    exact ⟨h, hlen⟩

/-- A serial read of any bytes keeps the cursor within the capacity. -/
theorem loop_bound (t : Nat) (bytes : List Nat) :
    ∀ c : Sim7600Component W, c.read_pos_ ≤ SIM7600_READ_BUFFER_LENGTH →
      c.read_buffer_.length = SIM7600_READ_BUFFER_LENGTH →
      (c.loop t bytes).1.read_pos_ ≤ SIM7600_READ_BUFFER_LENGTH ∧
      (c.loop t bytes).1.read_buffer_.length = SIM7600_READ_BUFFER_LENGTH := by
  induction bytes with
  | nil => intro c hpos hlen; exact ⟨hpos, hlen⟩
  | cons b rest ih =>
    intro c hpos hlen
    obtain ⟨h1, h2⟩ := loop_byte_bound t b c hpos hlen
    exact ih (c.loop_byte t b).1 h1 h2

/-- Servicing a request does not touch the read buffer or its cursor. -/
theorem service_request_buffer (c : Sim7600Component W) :
    c.service_request.1.read_pos_ = c.read_pos_ ∧
    c.service_request.1.read_buffer_ = c.read_buffer_ := by
  unfold Sim7600Component.service_request
  split
  · split
    · next r _ => cases r <;> exact ⟨rfl, rfl⟩
    · exact ⟨rfl, rfl⟩
  · exact ⟨rfl, rfl⟩

/-- Every operation keeps the cursor within the capacity. -/
theorem perform_bound (t : Nat) (op : Operation W) (c : Sim7600Component W)
    (hpos : c.read_pos_ ≤ SIM7600_READ_BUFFER_LENGTH)
    (hlen : c.read_buffer_.length = SIM7600_READ_BUFFER_LENGTH) :
    (c.perform t op).read_pos_ ≤ SIM7600_READ_BUFFER_LENGTH ∧
    (c.perform t op).read_buffer_.length = SIM7600_READ_BUFFER_LENGTH := by
  cases op with
  | loop bytes => exact loop_bound t bytes c hpos hlen
  | send_sms r m => exact ⟨hpos, hlen⟩
  | send_ussd u => exact ⟨hpos, hlen⟩
  | dial r => exact ⟨hpos, hlen⟩
  | connect => exact ⟨hpos, hlen⟩
  | disconnect => exact ⟨hpos, hlen⟩
  | register r => cases r <;> exact ⟨hpos, hlen⟩
  | service_request =>
    obtain ⟨h1, h2⟩ := service_request_buffer c
    simp only [Sim7600Component.perform, h1, h2]
    exact ⟨hpos, hlen⟩
  | engine e => cases e <;> exact ⟨hpos, hlen⟩

/-- Every sequence of operations keeps the cursor within the capacity. -/
theorem performAll_bound (t : Nat) (ops : List (Operation W)) :
    ∀ c : Sim7600Component W, c.read_pos_ ≤ SIM7600_READ_BUFFER_LENGTH →
      c.read_buffer_.length = SIM7600_READ_BUFFER_LENGTH →
      (c.performAll t ops).read_pos_ ≤ SIM7600_READ_BUFFER_LENGTH ∧
      (c.performAll t ops).read_buffer_.length = SIM7600_READ_BUFFER_LENGTH := by
  induction ops with
  | nil => intro c hpos hlen; exact ⟨hpos, hlen⟩
  | cons op rest ih =>
    intro c hpos hlen
    obtain ⟨h1, h2⟩ := perform_bound t op c hpos hlen
    exact ih (c.perform t op) h1 h2

end BufferBound

/-- Claim C5: in the initial state and after every sequence of operations
(serial reads of any bytes, public operations, registrations, engine steps)
the write cursor is at most `SIM7600_READ_BUFFER_LENGTH` = 1024, the buffer
keeps its 1024 slots, and the index at which the next byte would be stored
lies inside the buffer. -/
theorem read_pos_within_buffer {W : Type} (t : Nat) (u : Indeterminate)
    (ops : List (Operation W)) :
    SIM7600_READ_BUFFER_LENGTH = 1024 ∧
    (Sim7600Component.construct u : Sim7600Component W).read_pos_
      ≤ SIM7600_READ_BUFFER_LENGTH ∧
    ((Sim7600Component.construct u).performAll t ops).read_pos_
      ≤ SIM7600_READ_BUFFER_LENGTH ∧
    ((Sim7600Component.construct u).performAll t ops).read_buffer_.length
      = SIM7600_READ_BUFFER_LENGTH ∧
    ((Sim7600Component.construct u).performAll t ops).store_index
      < ((Sim7600Component.construct u).performAll t ops).read_buffer_.length := by
  have h0 : (Sim7600Component.construct u : Sim7600Component W).read_pos_
      ≤ SIM7600_READ_BUFFER_LENGTH := Nat.zero_le _
  obtain ⟨h1, h2⟩ := performAll_bound t ops (Sim7600Component.construct u) h0
    (construct_read_buffer_length u)
  refine ⟨rfl, h0, h1, h2, ?_⟩
  rw [h2]
  exact store_index_lt _ h1

/-! ## Theorems: request tracker -/

section RequestLemmas

variable {W : Type}

/-- Servicing keeps the recipient; a dial request is serviced only when one is
pending, it carries the recipient held, and its flag is cleared; servicing
anything else leaves the dial flag as it was. -/
theorem service_request_dial (c : Sim7600Component W) :
    c.service_request.1.recipient_ = c.recipient_ ∧
    (∀ x, c.service_request.2 = some (Request.dial x) →
      c.dial_pending_ = true ∧ x = c.recipient_ ∧ c.service_request.1.dial_pending_ = false) ∧
    ((∀ x, c.service_request.2 ≠ some (Request.dial x)) →
      c.service_request.1.dial_pending_ = c.dial_pending_) := by
  unfold Sim7600Component.service_request Sim7600Component.pending_request
  by_cases hs : c.state_ = STATE_IDLE
  · by_cases h1 : c.send_pending_ = true
    · simp [hs, h1, Sim7600Component.clear_pending]
    · by_cases h2 : c.dial_pending_ = true
      · simp [hs, h1, h2, Sim7600Component.clear_pending]
      · by_cases h3 : c.send_ussd_pending_ = true
        · simp [hs, h1, h2, h3, Sim7600Component.clear_pending]
        · by_cases h4 : c.connect_pending_ = true
          · simp [hs, h1, h2, h3, h4, Sim7600Component.clear_pending]
          · by_cases h5 : c.disconnect_pending_ = true
            · simp [hs, h1, h2, h3, h4, h5, Sim7600Component.clear_pending]
            · simp [hs, h1, h2, h3, h4, h5]
  · simp [hs]

/-- An engine effect touches neither the recipient nor the dial flag. -/
theorem engine_keeps_dial (c : Sim7600Component W) (e : EngineEffect) :
    (c.engine e).recipient_ = c.recipient_ ∧ (c.engine e).dial_pending_ = c.dial_pending_ := by
  cases e <;> exact ⟨rfl, rfl⟩

/-- In any run of the engine from a component whose pending dial, if any, is
for `B`, every dial request serviced is for `B`, and there is at most one,
none at all when no dial is pending. -/
theorem engine_run_dials (B : String) (steps : List (Option EngineEffect)) :
    ∀ c : Sim7600Component W, (c.dial_pending_ = true → c.recipient_ = B) →
      (∀ r ∈ (c.engine_run steps).2, r.isDial = true → r = Request.dial B) ∧
      ((c.engine_run steps).2.filter Request.isDial).length
        ≤ (if c.dial_pending_ = true then 1 else 0) := by
  induction steps with
  | nil => intro c _; simp [Sim7600Component.engine_run]
  | cons st rest ih =>
    intro c hc
    cases st with
    | some e =>
      obtain ⟨e1, e2⟩ := engine_keeps_dial c e
      have h := ih (c.engine e) (by rw [e1, e2]; exact hc)
      rw [e2] at h
      simpa [Sim7600Component.engine_run] using h
    | none =>
      obtain ⟨s1, s2, s3⟩ := service_request_dial c
      simp only [Sim7600Component.engine_run]
      cases hr : c.service_request.2 with
      | none =>
        have hd := s3 (by intro x; rw [hr]; exact Option.noConfusion)
        have h := ih c.service_request.1 (by rw [s1, hd]; exact hc)
        rw [hd] at h
        simpa using h
      | some r =>
        by_cases hdial : r.isDial = true
        · cases r with
          | dial x =>
            obtain ⟨d1, d2, d3⟩ := s2 x hr
            have hx : x = B := by rw [d2]; exact hc d1
            have h := ih c.service_request.1 (by rw [d3]; intro hf; cases hf)
            rw [d3] at h
            simp only [Bool.false_eq_true, if_false, Nat.le_zero, List.length_eq_zero] at h
            obtain ⟨ha, hb⟩ := h
            refine ⟨?_, ?_⟩
            · intro q hq hqd
              simp only [Option.toList, List.singleton_append, List.mem_cons] at hq
              rcases hq with hq | hq
              · rw [hq, hx]
              · exact ha q hq hqd
            · simp [Option.toList, Request.isDial, hb, d1]
          | send_sms a b => simp [Request.isDial] at hdial
          | send_ussd a => simp [Request.isDial] at hdial
          | connect => simp [Request.isDial] at hdial
          | disconnect => simp [Request.isDial] at hdial
        · have hne : ∀ x, c.service_request.2 ≠ some (Request.dial x) := by
            intro x hx
            rw [hr] at hx
            injection hx with hx
            rw [hx] at hdial
            exact hdial rfl
          have hd := s3 hne
          have h := ih c.service_request.1 (by rw [s1, hd]; exact hc)
          rw [hd] at h
          obtain ⟨ha, hb⟩ := h
          refine ⟨?_, ?_⟩
          · intro q hq hqd
            simp only [Option.toList, List.singleton_append, List.mem_cons] at hq
            rcases hq with hq | hq
            · rw [hq] at hqd; exact absurd hqd hdial
            · exact ha q hq hqd
          · simpa [Option.toList, hdial] using hb

end RequestLemmas

/-- Claim C4: last writer wins on dial requests.  When `dial(A)` and then
`dial(B)` are called on an Idle component with no SMS pending ahead of them,
the component is exactly as if only `dial(B)` had been called: a single dial
request is pending, for `B`; the engine is still Idle and the next servicing
starts on a dial of `B`, clearing the flag and entering `STATE_DIALING1`; and
in every run of the engine from there each dial request started is for `B`
and at most one is started, so nothing is queued. -/
theorem dial_last_writer_wins {W : Type} (A B : String) (c : Sim7600Component W)
    (hidle : c.state_ = STATE_IDLE) (hsend : c.send_pending_ = false)
    (steps : List (Option EngineEffect)) :
    (c.dial A).dial B = c.dial B ∧
    ((c.dial A).dial B).dial_pending_ = true ∧
    ((c.dial A).dial B).recipient_ = B ∧
    ((c.dial A).dial B).state_ = STATE_IDLE ∧
    ((c.dial A).dial B).pending_request = some (Request.dial B) ∧
    ((c.dial A).dial B).service_request.2 = some (Request.dial B) ∧
    ((c.dial A).dial B).service_request.1.dial_pending_ = false ∧
    ((c.dial A).dial B).service_request.1.state_ = STATE_DIALING1 ∧
    (∀ r ∈ (((c.dial A).dial B).engine_run steps).2, r.isDial = true → r = Request.dial B) ∧
    ((((c.dial A).dial B).engine_run steps).2.filter Request.isDial).length ≤ 1 := by
  have hp : ((c.dial A).dial B).pending_request = some (Request.dial B) := by
    simp [Sim7600Component.pending_request, Sim7600Component.dial, hsend]
  have hs : ((c.dial A).dial B).state_ = STATE_IDLE := hidle
  have hrun := engine_run_dials B steps ((c.dial A).dial B) (fun _ => rfl)
  refine ⟨rfl, rfl, rfl, hs, hp, ?_, ?_, ?_, hrun.1, ?_⟩
  · simp only [Sim7600Component.service_request, hs, if_true, hp]
  · simp only [Sim7600Component.service_request, hs, if_true, hp,
      Sim7600Component.clear_pending]
  · simp only [Sim7600Component.service_request, hs, if_true, hp,
      Sim7600Component.clear_pending, Request.entry_state, Option.getD_some]
  · have h1 : ((c.dial A).dial B).dial_pending_ = true := rfl
    have h2 := hrun.2
    rw [h1] at h2
    simpa using h2

/-- Witness for C4: `dial("A")` then `dial("B")` on a fresh component whose
flags start clear, followed by three rounds of servicing. -/
theorem dial_last_writer_wins_witness :
    ((Sim7600Component.construct Indeterminate.allClear : Sim7600Component Unit).state_
        = STATE_IDLE ∧
      (Sim7600Component.construct Indeterminate.allClear : Sim7600Component Unit).send_pending_
        = false) ∧
    ((((Sim7600Component.construct Indeterminate.allClear : Sim7600Component Unit).dial
        "A").dial "B").service_request.2 = some (Request.dial "B") ∧
      (((((Sim7600Component.construct Indeterminate.allClear : Sim7600Component Unit).dial
        "A").dial "B").engine_run
          [none, some (EngineEffect.enter STATE_IDLE), none]).2.filter Request.isDial).length
        ≤ 1) :=
  have h := dial_last_writer_wins "A" "B"
    (Sim7600Component.construct Indeterminate.allClear : Sim7600Component Unit) rfl rfl
    [none, some (EngineEffect.enter STATE_IDLE), none]
  ⟨⟨rfl, rfl⟩, h.2.2.2.2.2.1, h.2.2.2.2.2.2.2.2.2⟩

end sim7600
end esphome
